import Mathlib

/-!
Shallow embedding of the `center-object` skill (src/main.py).

The external world (camera + detector) is modelled as a list of query
responses: each call to `yolo.segment_camera` consumes the head of the
remaining list (an exhausted list yields the empty response, i.e. no
detections). Motion commands issued to the base actuator are collected
into an output trace. Floating-point quantities are modelled exactly as
rationals; rotation angles are recorded in degrees (the source converts
the same fixed literals to radians, a fixed scale factor).
-/

namespace CenterObject

/-- One YOLO detection: bounding box corners, class label, confidence. -/
structure Detection where
  x1 : ℚ
  y1 : ℚ
  x2 : ℚ
  y2 : ℚ
  class_name : String
  confidence : ℚ
deriving DecidableEq, Repr

/-- A command sent to the base actuator (`base.move_delta`): either a
planar displacement (dx, dy in meters) or a rotation (dtheta, recorded
in degrees). -/
inductive Command where
  | move (dx dy : ℚ)
  | rotate (dtheta : ℚ)
deriving DecidableEq, Repr

/-- Fixed image-center reference, `CENTER_U, CENTER_V = 320, 240`. -/
def CENTER_U : ℚ := 320

def CENTER_V : ℚ := 240

/-- `MAX_STEP = 0.04` meters. -/
def MAX_STEP : ℚ := 4/100

/-- `DAMPING = 0.5`. -/
def DAMPING : ℚ := 1/2

/-- `U_TOLERANCE = 80` pixels (rotational fine-centering tolerance). -/
def U_TOLERANCE : ℚ := 80

/-- Fine rotation step, 10 degrees. -/
def FINE_ANGLE_DEG : ℚ := 10

/-- `wiggle_step = 0.02` meters. -/
def wiggle_step : ℚ := 2/100

/-- A run's immutable configuration (the parameters of `center_object`). -/
structure Config where
  target : String
  tolerance : ℚ
  max_iterations : Nat
  gain : ℚ
deriving Repr

/-- Python's `str.lower()` on the ASCII class labels: lower-case each
character. (Defined over the character list so that it evaluates by
kernel reduction; agrees with `String.toLower` on these labels.) -/
def toLowerStr (s : String) : String := String.mk (s.data.map Char.toLower)

/-- `detect_target`: first detection in the response whose class name
matches the target label case-insensitively; `none` if no match. -/
def detect_target (target : String) (detections : List Detection) : Option Detection :=
  detections.find? (fun det => toLowerStr det.class_name == toLowerStr target)

/-- Bounding-box horizontal center `u = (x1 + x2) / 2`. -/
def box_u (det : Detection) : ℚ := (det.x1 + det.x2) / 2

/-- Bounding-box vertical center `v = (y1 + y2) / 2`. -/
def box_v (det : Detection) : ℚ := (det.y1 + det.y2) / 2

/-- Horizontal pixel error `u_err = u - CENTER_U`. -/
def u_err (det : Detection) : ℚ := box_u det - CENTER_U

/-- Vertical pixel error `v_err = v - CENTER_V`. -/
def v_err (det : Detection) : ℚ := box_v det - CENTER_V

/-- Per-axis clamp to `[-MAX_STEP, MAX_STEP]`:
`max(-MAX_STEP, min(MAX_STEP, x))`. -/
def clamp (x : ℚ) : ℚ := max (-MAX_STEP) (min MAX_STEP x)

/-- `dx = clamp(-gain * v_err * DAMPING)`. -/
def motion_dx (gain verr : ℚ) : ℚ := clamp (-gain * verr * DAMPING)

/-- `dy = clamp(-gain * u_err * DAMPING)`. -/
def motion_dy (gain uerr : ℚ) : ℚ := clamp (-gain * uerr * DAMPING)

/-- Wiggle dx on the given consecutive-miss count:
`wiggle_step * (1 if misses % 2 == 0 else -1)`. -/
def wiggle_dx (misses : Nat) : ℚ := wiggle_step * (if misses % 2 == 0 then 1 else -1)

/-- Wiggle dy on the given consecutive-miss count:
`wiggle_step * (1 if (misses // 2) % 2 == 0 else -1)`. -/
def wiggle_dy (misses : Nat) : ℚ := wiggle_step * (if (misses / 2) % 2 == 0 then 1 else -1)

/-- The fine rotation command chosen by `rotational_center` for a given
horizontal error: `u_err > 0` rotates `-10` degrees, else `+10`. -/
def rc_cmd (uerr : ℚ) : Command :=
  if uerr > 0 then Command.rotate (-FINE_ANGLE_DEG) else Command.rotate FINE_ANGLE_DEG

/-- The loop body of `rotational_center`, fuel = remaining fine-rotation
steps. Returns (result, remaining query responses, issued commands):
`some det` on success or step-budget exhaustion, `none` when the
detection is lost after a rotation. -/
def rc_loop (target : String) : Nat → Detection → List (List Detection) →
    Option Detection × List (List Detection) × List Command
  | 0, det, qs => (some det, qs, [])
  | n + 1, det, qs =>
      if |u_err det| < U_TOLERANCE then (some det, qs, [])
      else
        match detect_target target (qs.headD []) with
        | none => (none, qs.tail, [rc_cmd (u_err det)])
        | some det2 =>
            let rest := rc_loop target n det2 qs.tail
            (rest.1, rest.2.1, rc_cmd (u_err det) :: rest.2.2)

/-- `MAX_FINE_ROTATIONS = 6`. -/
def MAX_FINE_ROTATIONS : Nat := 6

/-- `rotational_center(det)`: up to 6 fine 10-degree rotations to bring
the horizontal error within `U_TOLERANCE`. -/
def rotational_center (target : String) (det : Detection) (qs : List (List Detection)) :
    Option Detection × List (List Detection) × List Command :=
  rc_loop target MAX_FINE_ROTATIONS det qs

/-- `search_rotate()`: rotate +30, then -60 (to -30), back +30, then
+60, then -120 (to -60), querying detection after each of the four
checkpoint offsets; on a hit, hand off to `rotational_center`; if all
four checkpoints miss, rotate +60 back toward 0 and return `none`. -/
def search_rotate (target : String) (qs : List (List Detection)) :
    Option Detection × List (List Detection) × List Command :=
  match detect_target target (qs.headD []) with
  | some det =>
      let rest := rotational_center target det qs.tail
      (rest.1, rest.2.1, Command.rotate 30 :: rest.2.2)
  | none =>
    let qs1 := qs.tail
    match detect_target target (qs1.headD []) with
    | some det =>
        let rest := rotational_center target det qs1.tail
        (rest.1, rest.2.1, Command.rotate 30 :: Command.rotate (-60) :: rest.2.2)
    | none =>
      let qs2 := qs1.tail
      match detect_target target (qs2.headD []) with
      | some det =>
          let rest := rotational_center target det qs2.tail
          (rest.1, rest.2.1,
            Command.rotate 30 :: Command.rotate (-60) :: Command.rotate 30 ::
              Command.rotate 60 :: rest.2.2)
      | none =>
        let qs3 := qs2.tail
        match detect_target target (qs3.headD []) with
        | some det =>
            let rest := rotational_center target det qs3.tail
            (rest.1, rest.2.1,
              Command.rotate 30 :: Command.rotate (-60) :: Command.rotate 30 ::
                Command.rotate 60 :: Command.rotate (-120) :: rest.2.2)
        | none =>
            (none, qs3.tail,
              [Command.rotate 30, Command.rotate (-60), Command.rotate 30,
                Command.rotate 60, Command.rotate (-120), Command.rotate 60])

/-- One run's terminal result: success flag and, on success, the final
pixel position. -/
abbrev RunResult := Bool × Option (ℚ × ℚ)

/-- The CENTERING-phase loop of `center_object`, fuel = remaining
iterations, threading the consecutive-miss counter. Returns (terminal
result, issued commands). -/
def centering_loop (cfg : Config) : Nat → Nat → List (List Detection) →
    RunResult × List Command
  | 0, _, _ => ((false, none), [])
  | n + 1, misses, qs =>
      match detect_target cfg.target (qs.headD []) with
      | none =>
          if misses + 1 ≥ 10 then ((false, none), [])
          else
            let rest := centering_loop cfg n (misses + 1) qs.tail
            (rest.1, Command.move (wiggle_dx (misses + 1)) (wiggle_dy (misses + 1)) :: rest.2)
      | some det =>
          if |u_err det| < cfg.tolerance ∧ |v_err det| < cfg.tolerance then
            ((true, some (box_u det, box_v det)), [])
          else
            let rest := centering_loop cfg n 0 qs.tail
            (rest.1,
              Command.move (motion_dx cfg.gain (v_err det)) (motion_dy cfg.gain (u_err det))
                :: rest.2)

/-- `center_object`: initial detection query; on a miss, the rotation
search (whose failure terminates the run FAILED); then the CENTERING
loop with the miss counter reset to 0. -/
def center_object (cfg : Config) (qs : List (List Detection)) :
    RunResult × List Command :=
  match detect_target cfg.target (qs.headD []) with
  | some _ => centering_loop cfg cfg.max_iterations 0 qs.tail
  | none =>
      match search_rotate cfg.target qs.tail with
      | (none, _, cmds) => ((false, none), cmds)
      | (some _, qs2, cmds) =>
          let rest := centering_loop cfg cfg.max_iterations 0 qs2
          (rest.1, cmds ++ rest.2)


/-! ## Concrete fixtures used by witnesses -/

/-- The default configuration of `center_object` (target "banana",
tolerance 30 px, 20 iterations, gain 0.0015). -/
def defaultCfg : Config := ⟨"banana", 30, 20, 3/2000⟩

/-- A detection of class "Banana" centered at (200, 150): u_err = -120,
v_err = -90. -/
def dBanana : Detection := ⟨100, 100, 300, 200, "Banana", 9/10⟩


/-- A "banana" detection with u_err = 100, v_err = -50 (the worked
example's pixel error). -/
def dFar : Detection := ⟨400, 140, 440, 240, "banana", 1⟩

/-- A "banana" detection with u_err = 30 (exactly the default
tolerance), v_err = 0. -/
def dEdge : Detection := ⟨300, 200, 400, 280, "banana", 1⟩

/-- A "banana" detection with u_err = 80 (exactly U_TOLERANCE). -/
def dEdge80 : Detection := ⟨350, 100, 450, 200, "banana", 1⟩

/-- A "banana" detection with u_err = -20, within U_TOLERANCE. -/
def dNear : Detection := ⟨250, 100, 350, 200, "banana", 1⟩

/-- A non-matching detection. -/
def dApple : Detection := ⟨0, 0, 10, 10, "apple", 1⟩

/-! ## Basic branch equations of the CENTERING loop -/

theorem centering_loop_zero (cfg : Config) (misses : Nat) (qs : List (List Detection)) :
    centering_loop cfg 0 misses qs = ((false, none), []) := rfl

theorem centering_loop_miss_stop (cfg : Config) (n misses : Nat) (qs : List (List Detection))
    (hdet : detect_target cfg.target (qs.headD []) = none) (h9 : 9 ≤ misses) :
    centering_loop cfg (n + 1) misses qs = ((false, none), []) := by
  simp only [centering_loop, hdet]
  rw [if_pos (by omega)]

theorem centering_loop_miss_wiggle (cfg : Config) (n misses : Nat) (qs : List (List Detection))
    (hdet : detect_target cfg.target (qs.headD []) = none) (hlt : misses + 1 < 10) :
    centering_loop cfg (n + 1) misses qs =
      ((centering_loop cfg n (misses + 1) qs.tail).1,
        Command.move (wiggle_dx (misses + 1)) (wiggle_dy (misses + 1)) ::
          (centering_loop cfg n (misses + 1) qs.tail).2) := by
  simp only [centering_loop, hdet]
  rw [if_neg (by omega)]

theorem centering_loop_hit_success (cfg : Config) (n misses : Nat) (qs : List (List Detection))
    (det : Detection) (hdet : detect_target cfg.target (qs.headD []) = some det)
    (hu : |u_err det| < cfg.tolerance) (hv : |v_err det| < cfg.tolerance) :
    centering_loop cfg (n + 1) misses qs = ((true, some (box_u det, box_v det)), []) := by
  simp only [centering_loop, hdet]
  rw [if_pos ⟨hu, hv⟩]

theorem centering_loop_hit_move (cfg : Config) (n misses : Nat) (qs : List (List Detection))
    (det : Detection) (hdet : detect_target cfg.target (qs.headD []) = some det)
    (hout : ¬(|u_err det| < cfg.tolerance ∧ |v_err det| < cfg.tolerance)) :
    centering_loop cfg (n + 1) misses qs =
      ((centering_loop cfg n 0 qs.tail).1,
        Command.move (motion_dx cfg.gain (v_err det)) (motion_dy cfg.gain (u_err det)) ::
          (centering_loop cfg n 0 qs.tail).2) := by
  simp only [centering_loop, hdet]
  rw [if_neg hout]

/-! ## Branch equations of the rotational fine-centerer -/

theorem rc_loop_zero (target : String) (det : Detection) (qs : List (List Detection)) :
    rc_loop target 0 det qs = (some det, qs, []) := rfl

theorem rc_loop_within (target : String) (n : Nat) (det : Detection) (qs : List (List Detection))
    (h : |u_err det| < U_TOLERANCE) :
    rc_loop target (n + 1) det qs = (some det, qs, []) := by
  simp only [rc_loop]
  rw [if_pos h]

theorem rc_loop_lost (target : String) (n : Nat) (det : Detection) (qs : List (List Detection))
    (hout : ¬ |u_err det| < U_TOLERANCE)
    (hdet : detect_target target (qs.headD []) = none) :
    rc_loop target (n + 1) det qs = (none, qs.tail, [rc_cmd (u_err det)]) := by
  simp only [rc_loop]
  rw [if_neg hout]
  simp only [hdet]

theorem rc_loop_step (target : String) (n : Nat) (det det2 : Detection)
    (qs : List (List Detection))
    (hout : ¬ |u_err det| < U_TOLERANCE)
    (hdet : detect_target target (qs.headD []) = some det2) :
    rc_loop target (n + 1) det qs =
      ((rc_loop target n det2 qs.tail).1, (rc_loop target n det2 qs.tail).2.1,
        rc_cmd (u_err det) :: (rc_loop target n det2 qs.tail).2.2) := by
  simp only [rc_loop]
  rw [if_neg hout]
  simp only [hdet]

/-! ## Branch equations of the search sweep -/

theorem search_rotate_found1 (target : String) (qs : List (List Detection)) (det : Detection)
    (h1 : detect_target target (qs.headD []) = some det) :
    search_rotate target qs =
      ((rotational_center target det qs.tail).1, (rotational_center target det qs.tail).2.1,
        Command.rotate 30 :: (rotational_center target det qs.tail).2.2) := by
  simp only [search_rotate, h1]

theorem search_rotate_found2 (target : String) (qs : List (List Detection)) (det : Detection)
    (h1 : detect_target target (qs.headD []) = none)
    (h2 : detect_target target (qs.tail.headD []) = some det) :
    search_rotate target qs =
      ((rotational_center target det qs.tail.tail).1,
        (rotational_center target det qs.tail.tail).2.1,
        Command.rotate 30 :: Command.rotate (-60) ::
          (rotational_center target det qs.tail.tail).2.2) := by
  simp only [search_rotate, h1, h2]

theorem search_rotate_found3 (target : String) (qs : List (List Detection)) (det : Detection)
    (h1 : detect_target target (qs.headD []) = none)
    (h2 : detect_target target (qs.tail.headD []) = none)
    (h3 : detect_target target (qs.tail.tail.headD []) = some det) :
    search_rotate target qs =
      ((rotational_center target det qs.tail.tail.tail).1,
        (rotational_center target det qs.tail.tail.tail).2.1,
        Command.rotate 30 :: Command.rotate (-60) :: Command.rotate 30 :: Command.rotate 60 ::
          (rotational_center target det qs.tail.tail.tail).2.2) := by
  simp only [search_rotate, h1, h2, h3]

theorem search_rotate_found4 (target : String) (qs : List (List Detection)) (det : Detection)
    (h1 : detect_target target (qs.headD []) = none)
    (h2 : detect_target target (qs.tail.headD []) = none)
    (h3 : detect_target target (qs.tail.tail.headD []) = none)
    (h4 : detect_target target (qs.tail.tail.tail.headD []) = some det) :
    search_rotate target qs =
      ((rotational_center target det qs.tail.tail.tail.tail).1,
        (rotational_center target det qs.tail.tail.tail.tail).2.1,
        Command.rotate 30 :: Command.rotate (-60) :: Command.rotate 30 :: Command.rotate 60 ::
          Command.rotate (-120) ::
          (rotational_center target det qs.tail.tail.tail.tail).2.2) := by
  simp only [search_rotate, h1, h2, h3, h4]

theorem search_rotate_exhausted (target : String) (qs : List (List Detection))
    (h1 : detect_target target (qs.headD []) = none)
    (h2 : detect_target target (qs.tail.headD []) = none)
    (h3 : detect_target target (qs.tail.tail.headD []) = none)
    (h4 : detect_target target (qs.tail.tail.tail.headD []) = none) :
    search_rotate target qs =
      (none, qs.tail.tail.tail.tail,
        [Command.rotate 30, Command.rotate (-60), Command.rotate 30,
          Command.rotate 60, Command.rotate (-120), Command.rotate 60]) := by
  simp only [search_rotate, h1, h2, h3, h4]

/-! ## Branch equations of the orchestrator -/

theorem center_object_initial_hit (cfg : Config) (qs : List (List Detection)) (det : Detection)
    (h0 : detect_target cfg.target (qs.headD []) = some det) :
    center_object cfg qs = centering_loop cfg cfg.max_iterations 0 qs.tail := by
  simp only [center_object, h0]

theorem center_object_search_fail (cfg : Config) (qs : List (List Detection))
    (h0 : detect_target cfg.target (qs.headD []) = none)
    (hs : (search_rotate cfg.target qs.tail).1 = none) :
    center_object cfg qs = ((false, none), (search_rotate cfg.target qs.tail).2.2) := by
  rcases hsr : search_rotate cfg.target qs.tail with ⟨r, qs2, cmds⟩
  rw [hsr] at hs
  simp only at hs
  subst hs
  simp only [center_object, h0, hsr]

theorem center_object_search_hit (cfg : Config) (qs : List (List Detection)) (det : Detection)
    (h0 : detect_target cfg.target (qs.headD []) = none)
    (hs : (search_rotate cfg.target qs.tail).1 = some det) :
    (center_object cfg qs).1 =
      (centering_loop cfg cfg.max_iterations 0 (search_rotate cfg.target qs.tail).2.1).1 := by
  rcases hsr : search_rotate cfg.target qs.tail with ⟨r, qs2, cmds⟩
  rw [hsr] at hs
  simp only at hs
  subst hs
  simp only [center_object, h0, hsr]

/-! ## Induction lemmas for the CENTERING loop -/

theorem centering_loop_result_cases (cfg : Config) :
    ∀ (n misses : Nat) (qs : List (List Detection)),
      (∃ p, (centering_loop cfg n misses qs).1 = (true, some p)) ∨
        (centering_loop cfg n misses qs).1 = (false, none) := by
  intro n
  induction n with
  | zero => intro misses qs; exact Or.inr rfl
  | succ n ih =>
      intro misses qs
      cases hdet : detect_target cfg.target (qs.headD []) with
      | none =>
          by_cases h9 : 9 ≤ misses
          · rw [centering_loop_miss_stop cfg n misses qs hdet h9]
            exact Or.inr rfl
          · rw [centering_loop_miss_wiggle cfg n misses qs hdet (by omega)]
            exact ih (misses + 1) qs.tail
      | some det =>
          by_cases htol : |u_err det| < cfg.tolerance ∧ |v_err det| < cfg.tolerance
          · rw [centering_loop_hit_success cfg n misses qs det hdet htol.1 htol.2]
            exact Or.inl ⟨(box_u det, box_v det), rfl⟩
          · rw [centering_loop_hit_move cfg n misses qs det hdet htol]
            exact ih 0 qs.tail

theorem centering_loop_all_miss (cfg : Config) :
    ∀ (k n misses : Nat), misses + k = 9 →
      (centering_loop cfg (n + k + 1) misses []).1 = (false, none) := by
  intro k
  induction k with
  | zero =>
      intro n misses h
      rw [centering_loop_miss_stop cfg (n + 0) misses [] rfl (by omega)]
  | succ k ih =>
      intro n misses h
      have hn : n + (k + 1) + 1 = (n + k + 1) + 1 := by omega
      rw [hn, centering_loop_miss_wiggle cfg (n + k + 1) misses [] rfl (by omega)]
      exact ih n (misses + 1) (by omega)

/-! ## Claim theorems -/

/-- C4: in the CENTERING phase, the run terminates FAILED with
`(false, none)` at the 10th consecutive miss (counter at 9 plus one more
absent detection) regardless of the remaining iteration budget; any
successful detection makes the iteration independent of the accumulated
miss count (counter reset to 0); and with every query absent, a run with
any budget of at least 10 fails. -/
theorem miss_counter_policy :
    (∀ (cfg : Config) (n misses : Nat) (qs : List (List Detection)),
        detect_target cfg.target (qs.headD []) = none → 9 ≤ misses →
        centering_loop cfg (n + 1) misses qs = ((false, none), [])) ∧
    (∀ (cfg : Config) (n misses : Nat) (qs : List (List Detection)) (det : Detection),
        detect_target cfg.target (qs.headD []) = some det →
        centering_loop cfg (n + 1) misses qs = centering_loop cfg (n + 1) 0 qs) ∧
    (∀ (cfg : Config) (n : Nat), (centering_loop cfg (n + 10) 0 []).1 = (false, none)) := by
  refine ⟨?_, ?_, ?_⟩
  · intro cfg n misses qs hdet h9
    exact centering_loop_miss_stop cfg n misses qs hdet h9
  · intro cfg n misses qs det hdet
    by_cases htol : |u_err det| < cfg.tolerance ∧ |v_err det| < cfg.tolerance
    · rw [centering_loop_hit_success cfg n misses qs det hdet htol.1 htol.2,
        centering_loop_hit_success cfg n 0 qs det hdet htol.1 htol.2]
    · rw [centering_loop_hit_move cfg n misses qs det hdet htol,
        centering_loop_hit_move cfg n 0 qs det hdet htol]
  · intro cfg n
    exact centering_loop_all_miss cfg 9 n 0 rfl

/-- Witness for C4 at concrete inputs: a 10th miss with budget left
fails immediately; a hit at miss count 7 behaves as at count 0; an
all-miss run with budget 12 fails. -/
theorem miss_counter_policy_witness :
    centering_loop defaultCfg 5 9 [] = ((false, none), []) ∧
    centering_loop defaultCfg 3 7 [[dBanana]] = centering_loop defaultCfg 3 0 [[dBanana]] ∧
    (centering_loop defaultCfg 12 0 []).1 = (false, none) :=
  ⟨miss_counter_policy.1 defaultCfg 4 9 [] rfl (by norm_num),
   miss_counter_policy.2.1 defaultCfg 2 7 [[dBanana]] dBanana (by rfl),
   miss_counter_policy.2.2 defaultCfg 2⟩

/-- C6: an iteration whose fresh detection has both pixel errors within
tolerance terminates the run SUCCESS with `(true, (u, v))` and issues no
motion command (empty command trace for the iteration). -/
theorem success_within_tolerance (cfg : Config) (n misses : Nat)
    (qs : List (List Detection)) (det : Detection)
    (hdet : detect_target cfg.target (qs.headD []) = some det)
    (hu : |u_err det| < cfg.tolerance) (hv : |v_err det| < cfg.tolerance) :
    centering_loop cfg (n + 1) misses qs = ((true, some (box_u det, box_v det)), []) :=
  centering_loop_hit_success cfg n misses qs det hdet hu hv

/-- Witness for C6: a "Banana" detection at pixel (310, 230): errors
(-10, -10), within tolerance 30; the run succeeds there with no motion
command. -/
theorem success_within_tolerance_witness :
    centering_loop defaultCfg 20 3 [[Detection.mk 300 200 320 260 "Banana" (8/10)]] =
      ((true, some (310, 230)), []) := by
  have h := success_within_tolerance defaultCfg 19 3
    [[Detection.mk 300 200 320 260 "Banana" (8/10)]]
    (Detection.mk 300 200 320 260 "Banana" (8/10)) (by rfl)
    (by norm_num [u_err, box_u, CENTER_U, defaultCfg])
    (by norm_num [v_err, box_v, CENTER_V, defaultCfg])
  rw [h]
  norm_num [box_u, box_v]

/-- C7: every run of `center_object` returns either `(true, some (u, v))`
or `(false, none)`: there is no partial success, and exhausting the
iteration budget without success yields `(false, none)` (the fuel-0 case
of the loop). -/
theorem run_result_dichotomy :
    (∀ (cfg : Config) (qs : List (List Detection)),
        (∃ p, (center_object cfg qs).1 = (true, some p)) ∨
          (center_object cfg qs).1 = (false, none)) ∧
    (∀ (cfg : Config) (misses : Nat) (qs : List (List Detection)),
        centering_loop cfg 0 misses qs = ((false, none), [])) := by
  constructor
  · intro cfg qs
    cases h0 : detect_target cfg.target (qs.headD []) with
    | some det =>
        rw [center_object_initial_hit cfg qs det h0]
        exact centering_loop_result_cases cfg cfg.max_iterations 0 qs.tail
    | none =>
        rcases hsr : search_rotate cfg.target qs.tail with ⟨r, qs2, cmds⟩
        cases r with
        | none =>
            right
            rw [center_object_search_fail cfg qs h0 (by rw [hsr])]
        | some det =>
            rw [center_object_search_hit cfg qs det h0 (by rw [hsr]), hsr]
            exact centering_loop_result_cases cfg cfg.max_iterations 0 qs2
  · intro cfg misses qs
    exact centering_loop_zero cfg misses qs

/-- C10: with `max_iterations = 0` the success branch is unreachable:
when the initial query already finds the target, the run still returns
`(false, none)` and issues no command at all; and in general every run
with a zero budget ends `(false, none)`. -/
theorem zero_budget_fails :
    (∀ (cfg : Config) (qs : List (List Detection)) (det : Detection),
        cfg.max_iterations = 0 → detect_target cfg.target (qs.headD []) = some det →
        center_object cfg qs = ((false, none), [])) ∧
    (∀ (cfg : Config) (qs : List (List Detection)),
        cfg.max_iterations = 0 → (center_object cfg qs).1 = (false, none)) := by
  constructor
  · intro cfg qs det h0 hdet
    rw [center_object_initial_hit cfg qs det hdet, h0, centering_loop_zero]
  · intro cfg qs h0
    cases hdet : detect_target cfg.target (qs.headD []) with
    | some det =>
        rw [center_object_initial_hit cfg qs det hdet, h0, centering_loop_zero]
    | none =>
        rcases hsr : search_rotate cfg.target qs.tail with ⟨r, qs2, cmds⟩
        cases r with
        | none =>
            rw [center_object_search_fail cfg qs hdet (by rw [hsr])]
        | some det =>
            rw [center_object_search_hit cfg qs det hdet (by rw [hsr]), h0,
              centering_loop_zero]

/-- Witness for C10: target "banana", zero iterations, the initial query
sees dBanana: the run returns `(false, none)` with no command. -/
theorem zero_budget_fails_witness :
    center_object (Config.mk "banana" 30 0 (3/2000)) [[dBanana]] = ((false, none), []) ∧
    (center_object (Config.mk "banana" 30 0 (3/2000)) []).1 = (false, none) :=
  ⟨zero_budget_fails.1 (Config.mk "banana" 30 0 (3/2000)) [[dBanana]] dBanana rfl (by rfl),
   zero_budget_fails.2 (Config.mk "banana" 30 0 (3/2000)) [] rfl⟩

/-- C1 counterexample: the claim's table says the first consecutive miss
(count 1) wiggles with (dx-sign, dy-sign) = (+, +); in the code the
first wiggle issued by the loop is `move (wiggle_dx 1) (wiggle_dy 1)`
with `wiggle_dx 1 < 0` (count 1 is odd, so the dx factor is -1). -/
theorem wiggle_direction_table_false :
    (centering_loop defaultCfg 20 0 []).2.head? =
      some (Command.move (wiggle_dx 1) (wiggle_dy 1)) ∧
    wiggle_dx 1 < 0 ∧ 0 < wiggle_dy 1 := by
  refine ⟨rfl, ?_, ?_⟩
  · norm_num [wiggle_dx, wiggle_step]
  · norm_num [wiggle_dy, wiggle_step]

/-- C1 (amended): on a miss with counter value m + 1 < 10 the loop
issues exactly `move (wiggle_dx (m+1)) (wiggle_dy (m+1))`; for miss
counts 1, 2, 3, 4 the (dx, dy) sign pairs are (−,+), (+,−), (−,−), (+,+)
respectively; the dx sign flips every miss, the dy sign flips every 2
misses; both magnitudes always equal `wiggle_step`. -/
theorem wiggle_direction_determinism :
    (∀ (cfg : Config) (n misses : Nat) (qs : List (List Detection)),
        detect_target cfg.target (qs.headD []) = none → misses + 1 < 10 →
        (centering_loop cfg (n + 1) misses qs).2.head? =
          some (Command.move (wiggle_dx (misses + 1)) (wiggle_dy (misses + 1)))) ∧
    ((wiggle_dx 1 = -wiggle_step ∧ wiggle_dy 1 = wiggle_step) ∧
      (wiggle_dx 2 = wiggle_step ∧ wiggle_dy 2 = -wiggle_step) ∧
      (wiggle_dx 3 = -wiggle_step ∧ wiggle_dy 3 = -wiggle_step) ∧
      (wiggle_dx 4 = wiggle_step ∧ wiggle_dy 4 = wiggle_step)) ∧
    (∀ m : Nat, wiggle_dx (m + 1) = -wiggle_dx m) ∧
    (∀ m : Nat, wiggle_dy (m + 2) = -wiggle_dy m) ∧
    (∀ m : Nat, |wiggle_dx m| = wiggle_step ∧ |wiggle_dy m| = wiggle_step) := by
  refine ⟨?_, ?_, ?_, ?_, ?_⟩
  · intro cfg n misses qs hdet hlt
    rw [centering_loop_miss_wiggle cfg n misses qs hdet hlt]
    rfl
  · refine ⟨⟨?_, ?_⟩, ⟨?_, ?_⟩, ⟨?_, ?_⟩, ⟨?_, ?_⟩⟩ <;>
      norm_num [wiggle_dx, wiggle_dy, wiggle_step]
  · intro m
    rcases Nat.mod_two_eq_zero_or_one m with h | h <;>
      norm_num [wiggle_dx, Nat.add_mod, h]
  · intro m
    have h2 : (m + 2) / 2 = m / 2 + 1 := Nat.add_div_right m (by norm_num)
    rcases Nat.mod_two_eq_zero_or_one (m / 2) with h | h <;>
      norm_num [wiggle_dy, h2, Nat.add_mod, h]
  · intro m
    constructor
    · rcases Nat.mod_two_eq_zero_or_one m with h | h <;>
        norm_num [wiggle_dx, h, wiggle_step]
    · rcases Nat.mod_two_eq_zero_or_one (m / 2) with h | h <;>
        norm_num [wiggle_dy, h, wiggle_step]

/-- Witness for C1 at concrete inputs: the first miss of a concrete run
wiggles by `(wiggle_dx 1, wiggle_dy 1)`; dx flips between counts 0 and
1, dy between counts 0 and 2; and the magnitude at count 5 is the wiggle
step. -/
theorem wiggle_direction_determinism_witness :
    (centering_loop defaultCfg 1 0 []).2.head? =
      some (Command.move (wiggle_dx 1) (wiggle_dy 1)) ∧
    wiggle_dx 1 = -wiggle_dx 0 ∧ wiggle_dy 2 = -wiggle_dy 0 ∧
    |wiggle_dx 5| = wiggle_step :=
  ⟨wiggle_direction_determinism.1 defaultCfg 0 0 [] rfl (by norm_num),
   wiggle_direction_determinism.2.2.1 0,
   wiggle_direction_determinism.2.2.2.1 0,
   (wiggle_direction_determinism.2.2.2.2 5).1⟩

/-- C3: an out-of-tolerance iteration issues exactly
`move (motion_dx gain v_err) (motion_dy gain u_err)`, each axis clamped
independently to [−MAX_STEP, MAX_STEP]; worked example: gain 0.0015,
u_err 100, v_err −50 give dx = 3/80 = 0.0375 (equal to the unclamped
product, i.e. not clamped) and dy = −4/100 = −0.04, clamped from the
unclamped product −3/40 = −0.075. -/
theorem motion_command_formula :
    (∀ (cfg : Config) (n misses : Nat) (qs : List (List Detection)) (det : Detection),
        detect_target cfg.target (qs.headD []) = some det →
        ¬(|u_err det| < cfg.tolerance ∧ |v_err det| < cfg.tolerance) →
        (centering_loop cfg (n + 1) misses qs).2.head? =
          some (Command.move (motion_dx cfg.gain (v_err det))
            (motion_dy cfg.gain (u_err det)))) ∧
    (∀ g e : ℚ, -MAX_STEP ≤ motion_dx g e ∧ motion_dx g e ≤ MAX_STEP) ∧
    (∀ g e : ℚ, -MAX_STEP ≤ motion_dy g e ∧ motion_dy g e ≤ MAX_STEP) ∧
    (motion_dx (3/2000) (-50) = 3/80 ∧ -(3/2000 : ℚ) * (-50) * DAMPING = 3/80) ∧
    (motion_dy (3/2000) 100 = -(4/100) ∧ -(3/2000 : ℚ) * 100 * DAMPING = -(3/40)) := by
  refine ⟨?_, ?_, ?_, ?_, ?_⟩
  · intro cfg n misses qs det hdet hout
    rw [centering_loop_hit_move cfg n misses qs det hdet hout]
    rfl
  · intro g e
    exact ⟨le_max_left _ _, max_le (by norm_num [MAX_STEP]) (min_le_left _ _)⟩
  · intro g e
    exact ⟨le_max_left _ _, max_le (by norm_num [MAX_STEP]) (min_le_left _ _)⟩
  · constructor <;> norm_num [motion_dx, clamp, MAX_STEP, DAMPING]
  · constructor <;> norm_num [motion_dy, clamp, MAX_STEP, DAMPING]

/-- Witness for C3: with the default configuration and a detection whose
error is (u_err, v_err) = (100, −50), the iteration's command is
`move (motion_dx gain (-50)) (motion_dy gain 100)`. -/
theorem motion_command_formula_witness :
    (centering_loop defaultCfg 1 0 [[dFar]]).2.head? =
      some (Command.move (motion_dx defaultCfg.gain (v_err dFar))
        (motion_dy defaultCfg.gain (u_err dFar))) :=
  motion_command_formula.1 defaultCfg 0 0 [[dFar]] dFar (by rfl)
    (by norm_num [u_err, v_err, box_u, box_v, dFar, CENTER_U, CENTER_V, defaultCfg])

/-- C9: the tolerance tests are strict: a detection with |u_err| or
|v_err| exactly equal to the tolerance does not terminate SUCCESS, the
iteration issues the motion command and recurses; and in the
fine-centerer a detection with |u_err| exactly U_TOLERANCE = 80 triggers
a fine rotation (the step's first command is `rc_cmd u_err`). -/
theorem tolerance_boundary_strict :
    (∀ (cfg : Config) (n misses : Nat) (qs : List (List Detection)) (det : Detection),
        detect_target cfg.target (qs.headD []) = some det →
        (|u_err det| = cfg.tolerance ∨ |v_err det| = cfg.tolerance) →
        centering_loop cfg (n + 1) misses qs =
          ((centering_loop cfg n 0 qs.tail).1,
            Command.move (motion_dx cfg.gain (v_err det)) (motion_dy cfg.gain (u_err det)) ::
              (centering_loop cfg n 0 qs.tail).2)) ∧
    (∀ (target : String) (n : Nat) (det : Detection) (qs : List (List Detection)),
        |u_err det| = U_TOLERANCE →
        (rc_loop target (n + 1) det qs).2.2.head? = some (rc_cmd (u_err det))) := by
  constructor
  · intro cfg n misses qs det hdet hb
    apply centering_loop_hit_move cfg n misses qs det hdet
    rcases hb with h | h
    · exact fun hc => absurd hc.1 (by rw [h]; exact lt_irrefl _)
    · exact fun hc => absurd hc.2 (by rw [h]; exact lt_irrefl _)
  · intro target n det qs h
    have hout : ¬ |u_err det| < U_TOLERANCE := by rw [h]; exact lt_irrefl _
    cases hdet : detect_target target (qs.headD []) with
    | none =>
        rw [rc_loop_lost target n det qs hout hdet]
        rfl
    | some det2 =>
        rw [rc_loop_step target n det det2 qs hout hdet]
        rfl

/-- Witness for C9: dEdge has u_err exactly 30 (the default tolerance):
the iteration moves instead of succeeding; dEdge80 has u_err exactly 80:
the fine-centering step rotates. -/
theorem tolerance_boundary_strict_witness :
    centering_loop defaultCfg 2 0 [[dEdge]] =
      ((centering_loop defaultCfg 1 0 []).1,
        Command.move (motion_dx defaultCfg.gain (v_err dEdge))
            (motion_dy defaultCfg.gain (u_err dEdge)) ::
          (centering_loop defaultCfg 1 0 []).2) ∧
    (rc_loop "banana" 1 dEdge80 []).2.2.head? = some (rc_cmd (u_err dEdge80)) :=
  ⟨tolerance_boundary_strict.1 defaultCfg 1 0 [[dEdge]] dEdge (by rfl)
      (Or.inl (by norm_num [u_err, box_u, dEdge, CENTER_U, defaultCfg])),
   tolerance_boundary_strict.2 "banana" 0 dEdge80 []
      (by norm_num [u_err, box_u, dEdge80, CENTER_U, U_TOLERANCE])⟩

/-- C2: losing the detection after a fine-rotation step (re-query
returns no match) makes the fine-centerer return `none`; when the run
entered through the search, that `none` makes `center_object` return
`(false, none)`; whereas exhausting the fine-rotation budget returns the
last-seen detection, and a search that returns a detection lets the run
proceed into the centering loop. -/
theorem fine_centering_loss_policy :
    (∀ (target : String) (n : Nat) (det : Detection) (qs : List (List Detection)),
        ¬ |u_err det| < U_TOLERANCE →
        detect_target target (qs.headD []) = none →
        rc_loop target (n + 1) det qs = (none, qs.tail, [rc_cmd (u_err det)])) ∧
    (∀ (target : String) (det : Detection) (qs : List (List Detection)),
        rc_loop target 0 det qs = (some det, qs, [])) ∧
    (∀ (cfg : Config) (qs : List (List Detection)),
        detect_target cfg.target (qs.headD []) = none →
        (search_rotate cfg.target qs.tail).1 = none →
        (center_object cfg qs).1 = (false, none)) ∧
    (∀ (cfg : Config) (qs : List (List Detection)) (det : Detection),
        detect_target cfg.target (qs.headD []) = none →
        (search_rotate cfg.target qs.tail).1 = some det →
        (center_object cfg qs).1 =
          (centering_loop cfg cfg.max_iterations 0
            (search_rotate cfg.target qs.tail).2.1).1) := by
  refine ⟨?_, ?_, ?_, ?_⟩
  · intro target n det qs hout hdet
    exact rc_loop_lost target n det qs hout hdet
  · intro target det qs
    exact rc_loop_zero target det qs
  · intro cfg qs h0 hs
    rw [center_object_search_fail cfg qs h0 hs]
  · intro cfg qs det h0 hs
    exact center_object_search_hit cfg qs det h0 hs

/-- Witness for C2: dBanana sits at u_err = −120 (outside U_TOLERANCE);
with an empty follow-up response the fine-centerer loses it and returns
`none`; a run whose initial query misses and whose search hits dBanana at
the first checkpoint but then loses it returns `(false, none)`; with fuel
0 the last-seen detection is returned; and a search that finds (and
fine-centers) dNear lets the run proceed to the centering loop. -/
theorem fine_centering_loss_policy_witness :
    rc_loop "banana" 6 dBanana [] = (none, [], [rc_cmd (u_err dBanana)]) ∧
    rc_loop "banana" 0 dBanana [] = (some dBanana, [], []) ∧
    (center_object defaultCfg [[], [dBanana]]).1 = (false, none) ∧
    (center_object defaultCfg [[], [dNear]]).1 =
      (centering_loop defaultCfg defaultCfg.max_iterations 0
        (search_rotate defaultCfg.target ([[], [dNear]] :
          List (List Detection)).tail).2.1).1 :=
  ⟨fine_centering_loss_policy.1 "banana" 5 dBanana []
      (by norm_num [u_err, box_u, dBanana, CENTER_U, U_TOLERANCE]) rfl,
   fine_centering_loss_policy.2.1 "banana" dBanana [],
   fine_centering_loss_policy.2.2.1 defaultCfg [[], [dBanana]] rfl
     (by
       show (search_rotate "banana" [[dBanana]]).1 = none
       rw [search_rotate_found1 "banana" [[dBanana]] dBanana rfl]
       show (rc_loop "banana" 6 dBanana [[dBanana]].tail).1 = none
       rw [fine_centering_loss_policy.1 "banana" 5 dBanana [[dBanana]].tail
         (by norm_num [u_err, box_u, dBanana, CENTER_U, U_TOLERANCE]) rfl]),
   fine_centering_loss_policy.2.2.2 defaultCfg [[], [dNear]] dNear rfl
     (by
       show (search_rotate "banana" [[dNear]]).1 = some dNear
       rw [search_rotate_found1 "banana" [[dNear]] dNear rfl]
       show (rc_loop "banana" 6 dNear [[dNear]].tail).1 = some dNear
       rw [rc_loop_within "banana" 5 dNear [[dNear]].tail
         (by norm_num [u_err, box_u, dNear, CENTER_U, U_TOLERANCE])])⟩

/-- C5: the search sweep rotates +30, −60, +30 (back to 0), +60, −120,
querying after each of the four checkpoint offsets (+30, −30, +60, −60);
a hit at any checkpoint immediately hands off to the fine-centerer and
returns its result (later checkpoints are never visited: the issued
commands are the prefix rotations, then only fine-centering commands);
if all four checkpoints miss, it rotates +60 back toward 0 and returns
`none`, which makes the whole run return `(false, none)`. -/
theorem search_sweep_order :
    (∀ (target : String) (qs : List (List Detection)),
        detect_target target (qs.headD []) = none →
        detect_target target (qs.tail.headD []) = none →
        detect_target target (qs.tail.tail.headD []) = none →
        detect_target target (qs.tail.tail.tail.headD []) = none →
        search_rotate target qs =
          (none, qs.tail.tail.tail.tail,
            [Command.rotate 30, Command.rotate (-60), Command.rotate 30,
              Command.rotate 60, Command.rotate (-120), Command.rotate 60])) ∧
    (∀ (target : String) (qs : List (List Detection)) (det : Detection),
        detect_target target (qs.headD []) = some det →
        search_rotate target qs =
          ((rotational_center target det qs.tail).1,
            (rotational_center target det qs.tail).2.1,
            Command.rotate 30 :: (rotational_center target det qs.tail).2.2)) ∧
    (∀ (target : String) (qs : List (List Detection)) (det : Detection),
        detect_target target (qs.headD []) = none →
        detect_target target (qs.tail.headD []) = some det →
        search_rotate target qs =
          ((rotational_center target det qs.tail.tail).1,
            (rotational_center target det qs.tail.tail).2.1,
            Command.rotate 30 :: Command.rotate (-60) ::
              (rotational_center target det qs.tail.tail).2.2)) ∧
    (∀ (target : String) (qs : List (List Detection)) (det : Detection),
        detect_target target (qs.headD []) = none →
        detect_target target (qs.tail.headD []) = none →
        detect_target target (qs.tail.tail.headD []) = some det →
        search_rotate target qs =
          ((rotational_center target det qs.tail.tail.tail).1,
            (rotational_center target det qs.tail.tail.tail).2.1,
            Command.rotate 30 :: Command.rotate (-60) :: Command.rotate 30 ::
              Command.rotate 60 :: (rotational_center target det qs.tail.tail.tail).2.2)) ∧
    (∀ (target : String) (qs : List (List Detection)) (det : Detection),
        detect_target target (qs.headD []) = none →
        detect_target target (qs.tail.headD []) = none →
        detect_target target (qs.tail.tail.headD []) = none →
        detect_target target (qs.tail.tail.tail.headD []) = some det →
        search_rotate target qs =
          ((rotational_center target det qs.tail.tail.tail.tail).1,
            (rotational_center target det qs.tail.tail.tail.tail).2.1,
            Command.rotate 30 :: Command.rotate (-60) :: Command.rotate 30 ::
              Command.rotate 60 :: Command.rotate (-120) ::
              (rotational_center target det qs.tail.tail.tail.tail).2.2)) ∧
    (∀ (cfg : Config) (qs : List (List Detection)),
        detect_target cfg.target (qs.headD []) = none →
        (search_rotate cfg.target qs.tail).1 = none →
        (center_object cfg qs).1 = (false, none)) := by
  refine ⟨?_, ?_, ?_, ?_, ?_, ?_⟩
  · intro target qs h1 h2 h3 h4
    exact search_rotate_exhausted target qs h1 h2 h3 h4
  · intro target qs det h1
    exact search_rotate_found1 target qs det h1
  · intro target qs det h1 h2
    exact search_rotate_found2 target qs det h1 h2
  · intro target qs det h1 h2 h3
    exact search_rotate_found3 target qs det h1 h2 h3
  · intro target qs det h1 h2 h3 h4
    exact search_rotate_found4 target qs det h1 h2 h3 h4
  · intro cfg qs h0 hs
    rw [center_object_search_fail cfg qs h0 hs]

/-- Witness for C5: with no detection at all the sweep issues exactly
the six rotations and fails; with dNear visible at the first checkpoint
the sweep hands off immediately; a run with the target never visible
returns `(false, none)`. -/
theorem search_sweep_order_witness :
    search_rotate "banana" [] =
      (none, [],
        [Command.rotate 30, Command.rotate (-60), Command.rotate 30,
          Command.rotate 60, Command.rotate (-120), Command.rotate 60]) ∧
    search_rotate "banana" [[dNear]] =
      ((rotational_center "banana" dNear [[dNear]].tail).1,
        (rotational_center "banana" dNear [[dNear]].tail).2.1,
        Command.rotate 30 :: (rotational_center "banana" dNear [[dNear]].tail).2.2) ∧
    (center_object defaultCfg [[]]).1 = (false, none) :=
  ⟨search_sweep_order.1 "banana" [] rfl rfl rfl rfl,
   search_sweep_order.2.1 "banana" [[dNear]] dNear rfl,
   search_sweep_order.2.2.2.2.2 defaultCfg [[]] rfl rfl⟩

/-- C8: the detection query selects the first listed detection whose
class label equals the target under case-insensitive comparison: the
empty response is absent, selection peels the list off the front, a
response in which no label matches is absent, and a selected detection
is a member whose lower-cased label equals the lower-cased target. -/
theorem first_match_selection :
    (∀ target : String, detect_target target [] = none) ∧
    (∀ (target : String) (d : Detection) (ds : List Detection),
        detect_target target (d :: ds) =
          if toLowerStr d.class_name == toLowerStr target then some d
          else detect_target target ds) ∧
    (∀ (target : String) (ds : List Detection),
        (∀ d ∈ ds, ¬ toLowerStr d.class_name = toLowerStr target) →
        detect_target target ds = none) ∧
    (∀ (target : String) (ds : List Detection) (d : Detection),
        detect_target target ds = some d →
        d ∈ ds ∧ toLowerStr d.class_name = toLowerStr target) := by
  refine ⟨?_, ?_, ?_, ?_⟩
  · intro target
    rfl
  · intro target d ds
    by_cases h : (toLowerStr d.class_name == toLowerStr target) = true
    · rw [if_pos h]
      exact List.find?_cons_of_pos ds h
    · rw [if_neg h]
      exact List.find?_cons_of_neg ds (by simpa using h)
  · intro target ds h
    exact List.find?_eq_none.mpr (fun d hd => by simpa using h d hd)
  · intro target ds d h
    refine ⟨List.mem_of_find?_eq_some h, ?_⟩
    have := List.find?_some h
    simpa using this

/-- Witness for C8: a response holding only an "apple" detection is
absent for target "banana"; in a response listing dApple before dBanana
the selected detection is dBanana, a member with matching label. -/
theorem first_match_selection_witness :
    detect_target "banana" [dApple] = none ∧
    (dBanana ∈ [dApple, dBanana] ∧
      toLowerStr dBanana.class_name = toLowerStr "banana") :=
  ⟨first_match_selection.2.2.1 "banana" [dApple]
      (by
        intro d hd
        simp only [List.mem_singleton] at hd
        subst hd
        decide),
   first_match_selection.2.2.2 "banana" [dApple, dBanana] dBanana rfl⟩

end CenterObject
